import Mathlib

/-!
Shallow embedding of the eBookVoice-AI conversion front end and of the
chapter-based conversion pipeline, together with proofs of the spec's
claims about them.

The upload handler, conversion trace, audio player and polling client are
translated from `frontend/landing-page/src/App.js`,
`frontend/landing-page/src/pages/LandingPage.js` and `frontend/App.js`.
The pipeline components (tier policy, synthesis orchestrator, result
assembler, job tracker) have no source under the repository snapshot, so
they are modelled from the spec, as marked on each definition.
-/

namespace EbookVoice

/-! ## Upload boundary (handleFileUpload) -/

/-- The accepted MIME types, from the `validTypes` array in
`handleFileUpload`. -/
def validTypes : List String := ["application/pdf", "text/plain", "application/epub+zip"]

/-- `uploadedFile.name.toLowerCase().endsWith('.epub')`, with the file name
embedded as a list of characters. -/
def hasEpubSuffix (name : List Char) : Bool :=
  (".epub".toList).isSuffixOf (name.map Char.toLower)

/-- The metadata of a browser `File` object that `handleFileUpload`
inspects: name, declared MIME type, and size in bytes. -/
structure FileMeta where
  name : List Char
  mime : String
  size : Nat
deriving Repr, DecidableEq

/-- The type check of `handleFileUpload`:
`validTypes.includes(uploadedFile.type) || isEpub`. -/
def typeCheckPasses (f : FileMeta) : Bool :=
  validTypes.contains f.mime || hasEpubSuffix f.name

/-- `const maxSize = 5 * 1024 * 1024` — the 5 MB trial limit. -/
def maxTrialSize : Nat := 5 * 1024 * 1024

/-- The component state touched by `handleFileUpload`: the selected file
and the audio URL it resets. -/
structure UploadState where
  file : Option FileMeta
  audioUrl : Option String
deriving Repr, DecidableEq

/-- `handleFileUpload` from `frontend/landing-page/src/App.js` lines
335-357 (identical in `pages/LandingPage.js` lines 838-860): no file or a
failed type check or an oversize file returns without touching state;
otherwise the file is staged and the audio URL cleared. -/
def handleFileUpload (s : UploadState) (f : Option FileMeta) : UploadState :=
  match f with
  | none => s
  | some file =>
    if ¬ (typeCheckPasses file = true) then s
    else if file.size > maxTrialSize then s
    else { s with file := some file, audioUrl := none }

/-! ## Audiobook player chapter navigation (CustomAudioPlayer) -/

/-- The player state touched by chapter navigation, from the
`CustomAudioPlayer` component of `frontend/landing-page/src/App.js`. -/
structure PlayerState where
  currentChapterIndex : Nat
  currentTime : Nat
  showChapters : Bool
  isPlaying : Bool
deriving Repr, DecidableEq

/-- `jumpToChapter(chapterIndex)`: only an index with
`chapterIndex >= 0 && chapterIndex < chapters.length` is applied; any
other index leaves the state unchanged.  The requested index is an
integer, as in the source. -/
def jumpToChapter (len : Nat) (s : PlayerState) (i : Int) : PlayerState :=
  if 0 ≤ i ∧ i < (len : Int) then
    { s with currentChapterIndex := i.toNat, currentTime := 0, showChapters := false }
  else s

/-- `nextChapter()`: steps forward only while
`currentChapterIndex < chapters.length - 1`. -/
def nextChapter (len : Nat) (s : PlayerState) : PlayerState :=
  if (s.currentChapterIndex : Int) < (len : Int) - 1 then
    jumpToChapter len s ((s.currentChapterIndex : Int) + 1)
  else s

/-- `prevChapter()`: steps back only while `currentChapterIndex > 0`. -/
def prevChapter (len : Nat) (s : PlayerState) : PlayerState :=
  if 0 < s.currentChapterIndex then
    jumpToChapter len s ((s.currentChapterIndex : Int) - 1)
  else s

/-- The `ended` listener `handleEnded`: auto-advance to the next chapter
while strictly below the last one, otherwise stop playback and rewind. -/
def handleEnded (len : Nat) (s : PlayerState) : PlayerState :=
  if (s.currentChapterIndex : Int) < (len : Int) - 1 then
    { s with currentChapterIndex := s.currentChapterIndex + 1 }
  else
    { s with isPlaying := false, currentTime := 0 }

/-- `disabled={currentChapterIndex === 0}` on the previous-chapter button. -/
def prevDisabled (s : PlayerState) : Bool :=
  s.currentChapterIndex == 0

/-- `disabled={currentChapterIndex === chapters.length - 1}` on the
next-chapter button. -/
def nextDisabled (len : Nat) (s : PlayerState) : Bool :=
  (s.currentChapterIndex : Int) == (len : Int) - 1

/-! ## Job-progress polling client (frontend/App.js) -/

/-- The fields of a backend job record that the mobile client reads. -/
structure JobView where
  id : Nat
  status : String
  progress : Nat
  error : Option String
deriving Repr, DecidableEq

/-- The client state touched by `pollJobProgress` and `fetchConversions`. -/
structure ClientState where
  conversions : List JobView
  currentJobId : Option Nat
  serverOnline : Bool
deriving Repr, DecidableEq

/-- The possible outcomes of the `fetch` in `pollJobProgress`: a network
error caught by the `catch`, a non-ok HTTP response, an ok response whose
body has `success: false`, or an ok response carrying a job record. -/
inductive PollOutcome where
  | fetchError
  | httpError
  | okNoSuccess
  | okJob (job : JobView)
deriving Repr, DecidableEq

/-- `pollJobProgress(jobId)` from `frontend/App.js` lines 130-164: on an
ok response the job is merged into the conversions list and, when its
status is `completed` or `failed`, the tracked job id is cleared; the
`catch` branch clears the tracked job id and marks the server offline. -/
def pollJobProgress (s : ClientState) (jobId : Nat) (r : PollOutcome) : ClientState :=
  match r with
  | .fetchError => { s with currentJobId := none, serverOnline := false }
  | .httpError => s
  | .okNoSuccess => s
  | .okJob job =>
    let s1 := { s with conversions :=
      s.conversions.map (fun conv => if conv.id == jobId then job else conv) }
    if job.status == "completed" || job.status == "failed" then
      { s1 with currentJobId := none }
    else s1

/-- The polling `useEffect` of `frontend/App.js` lines 66-80 installs the
2-second interval exactly while `currentJobId` is set. -/
def pollingEnabled (s : ClientState) : Bool :=
  s.currentJobId.isSome

/-- The active-job filter of `fetchConversions`:
`job.status === 'processing' || job.status === 'pending'`. -/
def isActiveJob (j : JobView) : Bool :=
  j.status == "processing" || j.status == "pending"

/-- `fetchConversions()` from `frontend/App.js` lines 166-191: on success
the list is replaced and, when some job is active and no job is currently
tracked, the first active job becomes the tracked one; on a fetch error
the server is marked offline. -/
def fetchConversions (s : ClientState) (r : Option (List JobView)) : ClientState :=
  match r with
  | none => { s with serverOnline := false }
  | some data =>
    let s1 := { s with conversions := data }
    match data.filter isActiveJob, s.currentJobId with
    | j :: _, none => { s1 with currentJobId := some j.id }
    | _, _ => s1

/-! ## Conversion run (simulateConversion) -/

/-- The `conversion_stats` object of a backend response, as read by the
landing pages. -/
structure ConvStats where
  total_chapters_found : Nat
  chapters_successfully_converted : Nat
  total_words_processed : Nat
  conversion_success_rate : ℚ
deriving Repr, DecidableEq

/-- The `audiobook` object of a backend response, as read by the landing
pages. -/
structure AudiobookView where
  chapter_count : Nat
  total_duration_minutes : ℚ
  total_size_mb : ℚ
  sample_rate : Nat
  format : String
deriving Repr, DecidableEq

/-- The JSON body of an ok `api/trailConvert` / `api/fullconvert`
response. -/
structure ConvResponse where
  success : Bool
  conversion_stats : ConvStats
  audiobook : AudiobookView
  error : Option String
deriving Repr, DecidableEq

/-- The stage messages that `simulateConversion` writes to
`currentStage`, one constructor per `setCurrentStage` call site (the
numeric payloads are the interpolated backend values).  The user-facing
rewording of error text is display-only and is not distinguished here. -/
inductive Stage where
  | blank
  | preparing
  | uploading
  | extracted (chapters : Nat)
  | converting (chapters : Nat)
  | generated
  | ready
deriving Repr, DecidableEq

/-- The component state written by `simulateConversion`. -/
structure ConvUIState where
  isConverting : Bool
  progress : Nat
  stage : Stage
  conversionResult : Option ConvResponse
  conversionError : Option String
  audioUrl : Option String
deriving Repr, DecidableEq

/-- The outcome of the conversion `fetch`: a network failure, a non-ok
HTTP status with the response text, or a parsed JSON body. -/
inductive ConvOutcome where
  | fetchFail (msg : String)
  | httpFail (status : Nat) (body : String)
  | ok (r : ConvResponse)
deriving Repr, DecidableEq

/-- The error state entered by the `catch` of `simulateConversion` in
`pages/LandingPage.js` lines 1041-1080: converting off, progress reset to
0, stage cleared, the error recorded. -/
def convErrorState (s : ConvUIState) (msg : String) : ConvUIState :=
  { s with isConverting := false, progress := 0, stage := .blank,
           conversionError := some msg }

/-- The successive observable component states written by
`simulateConversion` (`pages/LandingPage.js` lines 957-1081, identically
`src/App.js` lines 457-569), one list entry per batch of state updates,
starting from the reset that begins the run. -/
def simulateConversionTrace (outcome : ConvOutcome) : List ConvUIState :=
  let s0 : ConvUIState :=
    { isConverting := true, progress := 0, stage := .preparing,
      conversionResult := none, conversionError := none, audioUrl := none }
  let s1 := { s0 with progress := 15, stage := .uploading }
  match outcome with
  | .fetchFail msg => [s0, s1, convErrorState s1 msg]
  | .httpFail status body =>
      [s0, s1, convErrorState s1
        ("Server responded with " ++ toString status ++ ": " ++ body)]
  | .ok r =>
    if r.success then
      let s2 := { s1 with progress := 30,
                          stage := .extracted r.conversion_stats.total_chapters_found }
      let s3 := { s2 with progress := 60,
                          stage := .converting r.conversion_stats.chapters_successfully_converted }
      let s4 := { s3 with progress := 85, stage := .generated }
      let s5 := { s4 with progress := 100, stage := .ready,
                          conversionResult := some r,
                          audioUrl := some "conversion-complete", isConverting := false }
      [s0, s1, s2, s3, s4, s5]
    else
      [s0, s1, convErrorState s1
        ((r.error).getD "Conversion failed - unknown error")]

/-- The progress values of a trace, in observation order. -/
def progressList (tr : List ConvUIState) : List Nat :=
  tr.map (fun s => s.progress)

/-- A list of progress observations is non-decreasing. -/
def nondecreasing : List Nat → Bool
  | [] => true
  | [_] => true
  | a :: b :: t => decide (a ≤ b) && nondecreasing (b :: t)

/-- A state is terminal for the run: the converter has stopped with
either a result or an error recorded. -/
def isTerminalUI (s : ConvUIState) : Bool :=
  !s.isConverting && (s.conversionResult.isSome || s.conversionError.isSome)

/-! ## Job tracker state machine

Modelled from the spec: the Job Tracker component (section 4.6) has no
source under the repository snapshot, so its states and transitions are
taken from the spec's words. -/

inductive JobStatus where
  | pending
  | processing
  | completed
  | failed
deriving Repr, DecidableEq

/-- Modelled from the spec: one per-chapter synthesis record
(`ChapterAudioResult`, section 3). -/
structure ChapterAudioResult where
  chapter_index : Nat
  title : String
  speaker_used : String
  audio_ref : String
  duration_seconds : ℚ
  success : Bool
  error : Option String
deriving Repr, DecidableEq

/-- Modelled from the spec: the audiobook-level result object
(`AudiobookResult`, section 3). -/
structure AudiobookResult where
  chapters : List ChapterAudioResult
  chapter_count : Nat
  total_duration_seconds : ℚ
deriving Repr, DecidableEq

/-- Modelled from the spec: the fields of a `ConversionJob` owned by the
Job Tracker (section 3). -/
structure JobState where
  status : JobStatus
  progress_percent : Nat
  current_phase : String
  result : Option AudiobookResult
  error : Option String
deriving Repr, DecidableEq

/-- Modelled from the spec: the Job Tracker transition relation of
section 4.6 — `Pending → Processing`, progress/phase updates within
`Processing`, and the two terminal transitions out of `Processing`.  No
constructor steps out of `completed` or `failed`. -/
inductive trackerStep : JobState → JobState → Prop where
  | begin (s : JobState) :
      s.status = .pending →
      trackerStep s { s with status := .processing }
  | update (s : JobState) (p : Nat) (ph : String) :
      s.status = .processing →
      trackerStep s { s with progress_percent := p, current_phase := ph }
  | complete (s : JobState) (r : AudiobookResult) :
      s.status = .processing →
      trackerStep s { s with status := .completed, result := some r }
  | fail (s : JobState) (e : String) :
      s.status = .processing →
      trackerStep s { s with status := .failed, error := some e }

/-- A job status is terminal. -/
def terminalStatus (st : JobStatus) : Prop :=
  st = .completed ∨ st = .failed

/-! ## Result assembler statistics

Modelled from the spec: the Result Assembler (section 4.5) has no source
under the repository snapshot; its formulas and zero guards are taken
from the spec's words. -/

/-- Modelled from the spec: `conversion_success_rate = successes/attempts*100`
with the zero-attempts guard of section 4.5. -/
def successRate (attempts successes : Nat) : ℚ :=
  if attempts = 0 then 0 else (successes : ℚ) / (attempts : ℚ) * 100

/-- Modelled from the spec:
`processing_efficiency_words_per_second = total_words_processed/total_processing_time_seconds`
with the zero-time guard of section 4.5. -/
def processingEfficiency (words : Nat) (seconds : ℚ) : ℚ :=
  if seconds = 0 then 0 else (words : ℚ) / seconds

/-- The successful entries of a chapter-result list. -/
def countSuccesses (rs : List ChapterAudioResult) : Nat :=
  (rs.filter (fun r => r.success)).length

/-- Modelled from the spec: the `ConversionStats` record of section 4.5,
computed once from all chapter results. -/
structure ConversionStats where
  total_chapters_found : Nat
  chapters_successfully_converted : Nat
  total_words_processed : Nat
  conversion_success_rate : ℚ
  total_processing_time_seconds : ℚ
  processing_efficiency_words_per_second : ℚ
deriving Repr, DecidableEq

/-- Modelled from the spec: the Result Assembler's stats computation
(section 4.5). -/
def assembleStats (chaptersFound : Nat) (rs : List ChapterAudioResult)
    (words : Nat) (seconds : ℚ) : ConversionStats :=
  { total_chapters_found := chaptersFound
    chapters_successfully_converted := countSuccesses rs
    total_words_processed := words
    conversion_success_rate := successRate rs.length (countSuccesses rs)
    total_processing_time_seconds := seconds
    processing_efficiency_words_per_second := processingEfficiency words seconds }

/-! ## Tier policy

Modelled from the spec: the Tier Policy component (sections 4.3 and 6)
has no source under the repository snapshot; the truncation function and
the fixed tier lookup table are taken from the spec's words (the tier
numbers also appear verbatim in the upgrade copy of
`pages/LandingPage.js` lines 1280-1350). -/

/-- Whitespace for word splitting, as in a `split()` on whitespace. -/
def isWhite (c : Char) : Bool :=
  c == ' ' || c == '\n' || c == '\t' || c == '\r'

/-- Accumulator-based whitespace tokenizer: `acc` holds the reversed
characters of the word being read. -/
def wordsAux (acc : List Char) : List Char → List (List Char)
  | [] => if acc.isEmpty then [] else [acc.reverse]
  | c :: cs =>
    if isWhite c then
      if acc.isEmpty then wordsAux [] cs else acc.reverse :: wordsAux [] cs
    else wordsAux (c :: acc) cs

/-- The whitespace-delimited words of a text, in order. -/
def splitWords (l : List Char) : List (List Char) := wordsAux [] l

/-- Joins words back into a text with single spaces. -/
def sepJoin : List (List Char) → List Char
  | [] => []
  | [w] => w
  | w :: v :: ws => w ++ ' ' :: sepJoin (v :: ws)

/-- Modelled from the spec: a `Chapter` (section 3). -/
structure Chapter where
  index : Nat
  title : String
  body : List Char
  word_count : Nat
deriving Repr, DecidableEq

/-- Modelled from the spec: `TierLimits` (section 3); `none` is the
unbounded limit of the premium tier. -/
structure TierLimits where
  max_chapters : Option Nat
  max_words_per_chapter : Option Nat
deriving Repr, DecidableEq

/-- Keeps at most the given number of elements; `none` keeps all. -/
def takeOpt (n : Option Nat) (l : List α) : List α :=
  match n with
  | none => l
  | some k => l.take k

/-- Modelled from the spec: truncate a body to its first `k` words at a
word boundary; an unbounded limit leaves the body untouched. -/
def truncBody (n : Option Nat) (b : List Char) : List Char :=
  match n with
  | none => b
  | some k => sepJoin ((splitWords b).take k)

/-- Modelled from the spec: truncate one kept chapter's body and
recompute its `word_count` (section 4.3). -/
def truncChapter (t : TierLimits) (ch : Chapter) : Chapter :=
  let b := truncBody t.max_words_per_chapter ch.body
  { ch with body := b, word_count := (splitWords b).length }

/-- Modelled from the spec: the Tier Policy pure function of section 4.3
— keep at most `max_chapters` chapters in original order and truncate
each kept chapter. -/
def applyTierPolicy (chapters : List Chapter) (t : TierLimits) : List Chapter :=
  (takeOpt t.max_chapters chapters).map (truncChapter t)

/-- Modelled from the spec: the fixed tier lookup table of section 6
(sample, free, premium), with the limits stated in sections 3 and 6 and
in the landing-page upgrade copy. -/
def tierTable (tier : String) : Option TierLimits :=
  if tier = "sample" then some { max_chapters := some 5, max_words_per_chapter := some 50 }
  else if tier = "free" then some { max_chapters := some 10, max_words_per_chapter := some 250 }
  else if tier = "premium" then some { max_chapters := none, max_words_per_chapter := none }
  else none

/-! ## Synthesis orchestrator

Modelled from the spec: the Synthesis Orchestrator (section 4.4) has no
source under the repository snapshot; its per-chapter failure isolation
is taken from the spec's words. -/

/-- Modelled from the spec: the TTS engine contract — audio plus a
duration, or a synthesis error. -/
inductive SynthOutcome where
  | ok (audio_ref : String) (duration : ℚ)
  | err (msg : String)
deriving Repr, DecidableEq

/-- Modelled from the spec: one synthesis attempt (section 4.4, steps
2-4): success records the artifact, failure records `success := false`
with the error message, and in neither case does the attempt abort
anything. -/
def synthesizeChapter (voice : String) (synth : Nat → SynthOutcome)
    (ch : Chapter) : ChapterAudioResult :=
  match synth ch.index with
  | .ok ref dur =>
    { chapter_index := ch.index, title := ch.title, speaker_used := voice,
      audio_ref := ref, duration_seconds := dur, success := true, error := none }
  | .err m =>
    { chapter_index := ch.index, title := ch.title, speaker_used := voice,
      audio_ref := "", duration_seconds := 0, success := false, error := some m }

/-- Modelled from the spec: the orchestrator visits every chapter in
order, recording one result per chapter (section 4.4). -/
def orchestrate (voice : String) (synth : Nat → SynthOutcome)
    (chapters : List Chapter) : List ChapterAudioResult :=
  chapters.map (synthesizeChapter voice synth)

/-- Modelled from the spec: the Result Assembler's audiobook object
(sections 3 and 4.5). -/
def assembleAudiobook (rs : List ChapterAudioResult) : AudiobookResult :=
  { chapters := rs
    chapter_count := rs.length
    total_duration_seconds := (rs.map (fun r => r.duration_seconds)).sum }

/-- Modelled from the spec: a job whose pipeline has started synthesizing
runs every chapter and then completes (section 4.6: `Processing →
Completed` regardless of whether individual chapters failed). -/
def runSynthesisJob (voice : String) (synth : Nat → SynthOutcome)
    (chapters : List Chapter) : JobState :=
  { status := .completed
    progress_percent := 100
    current_phase := "complete"
    result := some (assembleAudiobook (orchestrate voice synth chapters))
    error := none }

/-- The concrete four-chapter job of the spec's scenario (section 8). -/
def fourChapters : List Chapter :=
  [ { index := 1, title := "One", body := [], word_count := 0 },
    { index := 2, title := "Two", body := [], word_count := 0 },
    { index := 3, title := "Three", body := [], word_count := 0 },
    { index := 4, title := "Four", body := [], word_count := 0 } ]

/-- The injected failure of the spec's scenario: chapter 2's synthesis
fails, every other chapter succeeds. -/
def failOnTwo (i : Nat) : SynthOutcome :=
  if i = 2 then .err "injected synthesis failure" else .ok "audio.wav" 60

/-! ## Helper lemmas on the word tokenizer -/

theorem wordsAux_append (w : List Char) (hw : ∀ c ∈ w, isWhite c = false) :
    ∀ (acc rest : List Char), wordsAux acc (w ++ rest) = wordsAux (w.reverse ++ acc) rest := by
  induction w with
  | nil => intro acc rest; simp
  | cons a t ih =>
    intro acc rest
    have ha : isWhite a = false := hw a (by simp)
    have ht : ∀ c ∈ t, isWhite c = false := fun c hc => hw c (by simp [hc])
    simp only [List.cons_append, wordsAux, ha, Bool.false_eq_true, if_false, List.append_eq]
    rw [ih ht (a :: acc) rest]
    simp

theorem wordsAux_space (acc : List Char) (rest : List Char) (h : acc ≠ []) :
    wordsAux acc (' ' :: rest) = acc.reverse :: wordsAux [] rest := by
  have hsp : isWhite ' ' = true := by decide
  simp [wordsAux, hsp, List.isEmpty_iff, h]

theorem splitWords_single (w : List Char) (h0 : w ≠ []) (hw : ∀ c ∈ w, isWhite c = false) :
    splitWords w = [w] := by
  have h := wordsAux_append w hw [] []
  simp at h
  rw [splitWords, h]
  simp [wordsAux, List.isEmpty_iff, h0]

theorem splitWords_word_space (w t : List Char) (h0 : w ≠ []) (hw : ∀ c ∈ w, isWhite c = false) :
    splitWords (w ++ ' ' :: t) = w :: splitWords t := by
  rw [splitWords, wordsAux_append w hw [] (' ' :: t)]
  simp only [List.append_nil]
  rw [wordsAux_space _ _ (by simp [h0])]
  simp [splitWords]

theorem splitWords_sepJoin : ∀ ws : List (List Char),
    (∀ w ∈ ws, w ≠ [] ∧ ∀ c ∈ w, isWhite c = false) →
    splitWords (sepJoin ws) = ws := by
  intro ws
  induction ws with
  | nil => intro _; simp [sepJoin, splitWords, wordsAux]
  | cons w tail ih =>
    intro h
    match tail with
    | [] =>
      have hw := h w (by simp)
      exact splitWords_single w hw.1 hw.2
    | v :: ws2 =>
      have hw := h w (by simp)
      rw [sepJoin, splitWords_word_space w _ hw.1 hw.2]
      rw [ih (fun x hx => h x (by simp [hx]))]

theorem wordsAux_tokens : ∀ (l acc : List Char), (∀ c ∈ acc, isWhite c = false) →
    ∀ w ∈ wordsAux acc l, w ≠ [] ∧ ∀ c ∈ w, isWhite c = false := by
  intro l
  induction l with
  | nil =>
    intro acc hacc w hw
    by_cases h : acc = []
    · simp [wordsAux, h] at hw
    · simp [wordsAux, List.isEmpty_iff, h] at hw
      subst hw
      constructor
      · simp [h]
      · intro c hc
        exact hacc c (by simpa using hc)
  | cons a t ih =>
    intro acc hacc w hw
    by_cases ha : isWhite a = true
    · by_cases h : acc = []
      · simp only [wordsAux, ha, if_true, h, List.isEmpty_nil] at hw
        exact ih [] (by simp) w hw
      · simp only [wordsAux, ha, if_true, List.isEmpty_iff, h, if_false] at hw
        rcases List.mem_cons.mp hw with h1 | h1
        · subst h1
          refine ⟨by simp [h], fun c hc => hacc c (by simpa using hc)⟩
        · exact ih [] (by simp) w h1
    · simp only [wordsAux, ha, if_false] at hw
      refine ih (a :: acc) ?_ w hw
      intro c hc
      rcases List.mem_cons.mp hc with h1 | h1
      · subst h1; simpa using ha
      · exact hacc c h1

theorem splitWords_tokens (l : List Char) :
    ∀ w ∈ splitWords l, w ≠ [] ∧ ∀ c ∈ w, isWhite c = false :=
  wordsAux_tokens l [] (by simp)

theorem splitWords_truncBody (k : Nat) (b : List Char) :
    splitWords (truncBody (some k) b) = (splitWords b).take k := by
  apply splitWords_sepJoin
  intro w hw
  exact splitWords_tokens b w (List.take_subset k _ hw)

/-! ## Claim theorems -/

/-- C1: a file offered to `handleFileUpload` is accepted and staged only
if its declared type (MIME or `.epub` extension) is PDF, EPUB or plain
text and its size is at most the 5 MB trial limit; a file failing the
type check or exceeding the size limit is rejected with the selected-file
state left unchanged, so no conversion is staged for it. -/
theorem upload_boundary_enforces_type_and_size (s : UploadState) (f : FileMeta) :
    (typeCheckPasses f = true ∧ f.size ≤ maxTrialSize →
      handleFileUpload s (some f) = { s with file := some f, audioUrl := none }) ∧
    ((typeCheckPasses f = false ∨ f.size > maxTrialSize) →
      handleFileUpload s (some f) = s) := by
  constructor
  · rintro ⟨ht, hsize⟩
    simp [handleFileUpload, ht]
    omega
  · rintro (ht | hsize)
    · simp [handleFileUpload, ht]
    · by_cases ht : typeCheckPasses f = true
      · simp [handleFileUpload, ht, hsize]
      · simp [handleFileUpload, ht]

/-- Witness for C1: a small PDF is staged; an unknown MIME type without
the `.epub` extension is rejected and the state is unchanged. -/
theorem upload_boundary_witness :
    handleFileUpload ⟨none, none⟩ (some ⟨"book.pdf".toList, "application/pdf", 1000⟩) =
      ⟨some ⟨"book.pdf".toList, "application/pdf", 1000⟩, none⟩ ∧
    handleFileUpload ⟨none, none⟩ (some ⟨"virus.exe".toList, "application/octet-stream", 1000⟩) =
      ⟨none, none⟩ := by
  constructor
  · exact (upload_boundary_enforces_type_and_size ⟨none, none⟩ _).1 ⟨by decide, by decide⟩
  · exact (upload_boundary_enforces_type_and_size ⟨none, none⟩ _).2 (Or.inl (by decide))

/-- C8: any file whose name ends in `.epub` (case-insensitively) passes
the type check regardless of its declared MIME type, and the type check
rejects exactly the files that both lack the suffix and declare a MIME
type outside the accepted list. -/
theorem epub_suffix_bypasses_mime_check (s : UploadState) (f : FileMeta) :
    (hasEpubSuffix f.name = true → typeCheckPasses f = true) ∧
    (typeCheckPasses f = false ↔
      hasEpubSuffix f.name = false ∧ validTypes.contains f.mime = false) ∧
    (hasEpubSuffix f.name = true → f.size ≤ maxTrialSize →
      handleFileUpload s (some f) = { s with file := some f, audioUrl := none }) := by
  refine ⟨?_, ?_, ?_⟩
  · intro h
    simp [typeCheckPasses, h]
  · constructor
    · intro h
      unfold typeCheckPasses at h
      rcases Bool.or_eq_false_iff.mp h with ⟨h1, h2⟩
      exact ⟨h2, h1⟩
    · rintro ⟨h1, h2⟩
      unfold typeCheckPasses
      rw [h1, h2]
      rfl
  · intro h hsize
    refine (upload_boundary_enforces_type_and_size s f).1 ⟨?_, hsize⟩
    simp [typeCheckPasses, h]

/-- Witness for C8: a file named `Strange.EPUB` with an empty MIME type
passes the type check and is staged. -/
theorem epub_suffix_witness :
    typeCheckPasses ⟨"Strange.EPUB".toList, "", 10⟩ = true ∧
    handleFileUpload ⟨none, none⟩ (some ⟨"Strange.EPUB".toList, "", 10⟩) =
      ⟨some ⟨"Strange.EPUB".toList, "", 10⟩, none⟩ := by
  constructor
  · exact (epub_suffix_bypasses_mime_check ⟨none, none⟩ _).1 (by decide)
  · exact (epub_suffix_bypasses_mime_check ⟨none, none⟩ _).2.2 (by decide) (by decide)

/-- C7: the fixed tier lookup table maps `sample` to 5 chapters × 50
words, `free` to 10 chapters × 250 words, and `premium` to unbounded
chapters and words. -/
theorem tier_lookup_table_values :
    tierTable "sample" = some { max_chapters := some 5, max_words_per_chapter := some 50 } ∧
    tierTable "free" = some { max_chapters := some 10, max_words_per_chapter := some 250 } ∧
    tierTable "premium" = some { max_chapters := none, max_words_per_chapter := none } := by
  refine ⟨?_, ?_, ?_⟩ <;> rfl

/-- C9: with a non-empty chapter list and an in-bounds current index,
every player navigation operation keeps the current chapter index in
bounds: `jumpToChapter` ignores out-of-range indices, `nextChapter` and
`prevChapter` are no-ops (with their buttons disabled) at the last and
first chapter, and end-of-audio auto-advance increments only while
strictly below the last chapter. -/
theorem player_chapter_index_in_bounds (len : Nat) (s : PlayerState) (i : Int)
    (hlen : 0 < len) (hs : s.currentChapterIndex < len) :
    ((jumpToChapter len s i).currentChapterIndex < len) ∧
    (¬ (0 ≤ i ∧ i < (len : Int)) → jumpToChapter len s i = s) ∧
    ((nextChapter len s).currentChapterIndex < len) ∧
    ((prevChapter len s).currentChapterIndex < len) ∧
    ((handleEnded len s).currentChapterIndex < len) ∧
    (s.currentChapterIndex = len - 1 → nextChapter len s = s ∧ nextDisabled len s = true) ∧
    (s.currentChapterIndex = 0 → prevChapter len s = s ∧ prevDisabled s = true) ∧
    ((s.currentChapterIndex : Int) < (len : Int) - 1 →
      handleEnded len s = { s with currentChapterIndex := s.currentChapterIndex + 1 }) ∧
    (¬ (s.currentChapterIndex : Int) < (len : Int) - 1 →
      handleEnded len s = { s with isPlaying := false, currentTime := 0 }) := by
  have hjump : ∀ j : Int, (jumpToChapter len s j).currentChapterIndex < len := by
    intro j
    unfold jumpToChapter
    by_cases h : 0 ≤ j ∧ j < (len : Int)
    · rw [if_pos h]
      show j.toNat < len
      omega
    · rw [if_neg h]
      exact hs
  refine ⟨hjump i, ?_, ?_, ?_, ?_, ?_, ?_, ?_, ?_⟩
  · intro h
    unfold jumpToChapter
    rw [if_neg h]
  · unfold nextChapter
    by_cases h : (s.currentChapterIndex : Int) < (len : Int) - 1
    · rw [if_pos h]
      exact hjump _
    · rw [if_neg h]
      exact hs
  · unfold prevChapter
    by_cases h : 0 < s.currentChapterIndex
    · rw [if_pos h]
      exact hjump _
    · rw [if_neg h]
      exact hs
  · unfold handleEnded
    by_cases h : (s.currentChapterIndex : Int) < (len : Int) - 1
    · rw [if_pos h]
      show s.currentChapterIndex + 1 < len
      omega
    · rw [if_neg h]
      exact hs
  · intro hlast
    have h : ¬ (s.currentChapterIndex : Int) < (len : Int) - 1 := by omega
    constructor
    · unfold nextChapter
      rw [if_neg h]
    · simp only [nextDisabled, beq_iff_eq]
      omega
  · intro hfirst
    have h : ¬ 0 < s.currentChapterIndex := by omega
    constructor
    · unfold prevChapter
      rw [if_neg h]
    · simp only [prevDisabled, hfirst]
      rfl
  · intro h
    unfold handleEnded
    rw [if_pos h]
  · intro h
    unfold handleEnded
    rw [if_neg h]

/-- Witness for C9: a three-chapter player at chapter 1 stays in bounds
under a jump to an out-of-range index. -/
theorem player_chapter_index_witness :
    (jumpToChapter 3 ⟨1, 0, false, true⟩ 7).currentChapterIndex < 3 ∧
    jumpToChapter 3 ⟨1, 0, false, true⟩ 7 = ⟨1, 0, false, true⟩ ∧
    (handleEnded 3 ⟨1, 0, false, true⟩).currentChapterIndex < 3 := by
  have h := player_chapter_index_in_bounds 3 ⟨1, 0, false, true⟩ 7 (by decide) (by decide)
  exact ⟨h.1, h.2.1 (by decide), h.2.2.2.2.1⟩

/-- C10: the job-progress polling loop stops on the first fetch error:
the catch branch clears the tracked job id and marks the server offline,
which disables the polling interval, and only a later refresh of the
conversions list that still reports the job active starts tracking it
again. -/
theorem poll_error_stops_polling (s : ClientState) (jobId : Nat) :
    (pollJobProgress s jobId .fetchError).currentJobId = none ∧
    (pollJobProgress s jobId .fetchError).serverOnline = false ∧
    pollingEnabled (pollJobProgress s jobId .fetchError) = false ∧
    (∀ data j rest, data.filter isActiveJob = j :: rest →
      (fetchConversions (pollJobProgress s jobId .fetchError) (some data)).currentJobId =
        some j.id) := by
  refine ⟨rfl, rfl, rfl, ?_⟩
  intro data j rest h
  simp [pollJobProgress, fetchConversions, h]

/-- Witness for C10: a client tracking job 5 hits a fetch error, stops
polling, and a manual refresh that reports job 7 active resumes
tracking. -/
theorem poll_error_witness :
    (pollJobProgress ⟨[], some 5, true⟩ 5 .fetchError).currentJobId = none ∧
    (fetchConversions (pollJobProgress ⟨[], some 5, true⟩ 5 .fetchError)
        (some [⟨7, "processing", 0, none⟩])).currentJobId = some 7 := by
  have h := poll_error_stops_polling ⟨[], some 5, true⟩ 5
  exact ⟨h.1, h.2.2.2 [⟨7, "processing", 0, none⟩] ⟨7, "processing", 0, none⟩ [] (by decide)⟩

/-- C3: no Job Tracker transition leaves a terminal state (so status,
result and error are immutable from then on), and a polling client that
observes a `completed` or `failed` job clears its tracked job id, ending
progress polls for that job.  The tracker side is modelled from the spec
(section 4.6); the client side is `pollJobProgress` of
`frontend/App.js`. -/
theorem terminal_state_immutable (s s2 : JobState) (cs : ClientState) (jobId : Nat)
    (jv : JobView)
    (hs : terminalStatus s.status)
    (hj : jv.status = "completed" ∨ jv.status = "failed") :
    ¬ trackerStep s s2 ∧
    (pollJobProgress cs jobId (.okJob jv)).currentJobId = none := by
  constructor
  · intro hstep
    rcases hs with h2 | h2 <;>
      cases hstep <;> simp_all
  · rcases hj with h | h <;> simp [pollJobProgress, h]

/-- Witness for C3: a completed job admits no tracker step, and a client
observing it stops polling. -/
theorem terminal_state_witness :
    ¬ trackerStep ⟨.completed, 100, "done", none, none⟩ ⟨.pending, 0, "", none, none⟩ ∧
    (pollJobProgress ⟨[], some 3, true⟩ 3
        (.okJob ⟨3, "completed", 100, none⟩)).currentJobId = none :=
  terminal_state_immutable ⟨.completed, 100, "done", none, none⟩ ⟨.pending, 0, "", none, none⟩
    ⟨[], some 3, true⟩ 3 ⟨3, "completed", 100, none⟩ (Or.inl rfl) (Or.inl rfl)

/-- C4: the assembled conversion success rate is `successes/attempts*100`
— equivalently `(attempts - failures)/attempts*100` — giving exactly 100
when all of `M` attempts succeed and `(M-N)/M*100` when `N` of `M` fail;
zero attempts give a rate of 0 instead of a division error, and zero
elapsed time gives an efficiency of 0. -/
theorem success_rate_and_efficiency (chaptersFound words M N k : Nat)
    (rs : List ChapterAudioResult) (seconds : ℚ)
    (hNM : N ≤ M) (hM : M ≠ 0) :
    (assembleStats chaptersFound rs words seconds).conversion_success_rate =
      successRate rs.length (countSuccesses rs) ∧
    successRate M M = 100 ∧
    successRate M (M - N) = ((M : ℚ) - (N : ℚ)) / (M : ℚ) * 100 ∧
    successRate 0 k = 0 ∧
    processingEfficiency words 0 = 0 := by
  have hMQ : (M : ℚ) ≠ 0 := by exact_mod_cast hM
  refine ⟨rfl, ?_, ?_, rfl, rfl⟩
  · rw [successRate, if_neg hM, div_self hMQ, one_mul]
  · rw [successRate, if_neg hM]
    congr 1
    congr 1
    push_cast [hNM]
    ring

/-- Witness for C4: with 4 attempts and 1 failure the rate is 75; all 4
succeeding gives 100; zero attempts and zero time give 0. -/
theorem success_rate_witness :
    successRate 4 4 = 100 ∧
    successRate 4 (4 - 1) = ((4 : ℚ) - (1 : ℚ)) / (4 : ℚ) * 100 ∧
    successRate 0 9 = 0 ∧
    processingEfficiency 7 0 = 0 := by
  have h := success_rate_and_efficiency 0 7 4 1 9 [] 0 (by decide) (by decide)
  exact ⟨h.2.1, h.2.2.1, h.2.2.2.1, h.2.2.2.2⟩

/-- C5: a job whose pipeline starts synthesizing completes regardless of
individual chapter failures: every chapter's synthesis error is recorded
in that chapter's result with `success := false` and the job still ends
`completed` with no job-level error; in the spec's scenario, a 4-chapter
job with chapter 2 failing yields 3 successful chapters and a 75% success
rate. -/
theorem chapter_failure_never_fails_job (voice : String) (synth : Nat → SynthOutcome)
    (chapters : List Chapter) :
    (runSynthesisJob voice synth chapters).status = .completed ∧
    (runSynthesisJob voice synth chapters).error = none ∧
    (runSynthesisJob voice synth chapters).result =
      some (assembleAudiobook (orchestrate voice synth chapters)) ∧
    (∀ ch ∈ chapters, ∀ m, synth ch.index = .err m →
      (synthesizeChapter voice synth ch).success = false ∧
      (synthesizeChapter voice synth ch).error = some m) ∧
    (runSynthesisJob "narrator" failOnTwo fourChapters).status = .completed ∧
    countSuccesses (orchestrate "narrator" failOnTwo fourChapters) = 3 ∧
    successRate (orchestrate "narrator" failOnTwo fourChapters).length
      (countSuccesses (orchestrate "narrator" failOnTwo fourChapters)) = 75 := by
  refine ⟨rfl, rfl, rfl, ?_, rfl, ?_, ?_⟩
  · intro ch _ m hm
    constructor <;> simp [synthesizeChapter, hm]
  · rfl
  · have h3 : countSuccesses (orchestrate "narrator" failOnTwo fourChapters) = 3 := rfl
    have h4 : (orchestrate "narrator" failOnTwo fourChapters).length = 4 := rfl
    rw [h3, h4, successRate, if_neg (by decide)]
    norm_num

/-- Witness for C5: chapter 2 of the scenario records its injected
failure without failing the job. -/
theorem chapter_failure_witness :
    (runSynthesisJob "narrator" failOnTwo fourChapters).status = .completed ∧
    (synthesizeChapter "narrator" failOnTwo
        ⟨2, "Two", [], 0⟩).success = false ∧
    (synthesizeChapter "narrator" failOnTwo
        ⟨2, "Two", [], 0⟩).error = some "injected synthesis failure" := by
  have h := chapter_failure_never_fails_job "narrator" failOnTwo fourChapters
  have h2 := h.2.2.2.1 ⟨2, "Two", [], 0⟩ (by simp [fourChapters]) "injected synthesis failure" rfl
  exact ⟨h.1, h2.1, h2.2⟩

/-- Counterexample to C2 as stated: on a failed conversion the observed
progress sequence is `[0, 15, 0]` — the `catch` branch resets progress to
0 as the job enters its terminal error state, so progress is not
non-decreasing across the observations of the job up to and including the
terminal one (which is the only terminal observation of the trace). -/
theorem progress_monotone_counterexample :
    progressList (simulateConversionTrace (.fetchFail "Failed to fetch")) = [0, 15, 0] ∧
    nondecreasing (progressList (simulateConversionTrace (.fetchFail "Failed to fetch"))) =
      false ∧
    (simulateConversionTrace (.fetchFail "Failed to fetch")).map isTerminalUI =
      [false, false, true] := by
  refine ⟨rfl, rfl, rfl⟩

/-- C2 (amended): every observed progress value lies in [0,100] and the
progress is non-decreasing across all observations strictly before the
terminal one; on a successful conversion it is non-decreasing across the
whole trace, but on a failure the terminal observation resets progress to
0. -/
theorem progress_bounds_and_monotonicity (o : ConvOutcome) :
    (∀ st ∈ simulateConversionTrace o, st.progress ≤ 100) ∧
    nondecreasing (progressList ((simulateConversionTrace o).dropLast)) = true ∧
    (∀ r, o = .ok r → r.success = true →
      nondecreasing (progressList (simulateConversionTrace o)) = true) := by
  cases o with
  | fetchFail msg =>
    refine ⟨?_, ?_, ?_⟩
    · intro st hst
      rcases (by simpa [simulateConversionTrace, convErrorState] using hst :
        st = _ ∨ st = _ ∨ st = _) with rfl | rfl | rfl <;> simp
    · simp [simulateConversionTrace, convErrorState, progressList, nondecreasing]
    · intro r hr
      exact ConvOutcome.noConfusion hr
  | httpFail code body =>
    refine ⟨?_, ?_, ?_⟩
    · intro st hst
      rcases (by simpa [simulateConversionTrace, convErrorState] using hst :
        st = _ ∨ st = _ ∨ st = _) with rfl | rfl | rfl <;> simp
    · simp [simulateConversionTrace, convErrorState, progressList, nondecreasing]
    · intro r hr
      exact ConvOutcome.noConfusion hr
  | ok r =>
    by_cases hr : r.success = true
    · refine ⟨?_, ?_, ?_⟩
      · intro st hst
        rcases (by simpa [simulateConversionTrace, hr] using hst :
          st = _ ∨ st = _ ∨ st = _ ∨ st = _ ∨ st = _ ∨ st = _) with
          rfl | rfl | rfl | rfl | rfl | rfl <;> simp
      · simp [simulateConversionTrace, hr, progressList, nondecreasing]
      · intro r2 hr2 _
        simp [simulateConversionTrace, hr, progressList, nondecreasing]
    · have hr2 : r.success = false := by
        cases h : r.success
        · rfl
        · exact absurd h hr
      refine ⟨?_, ?_, ?_⟩
      · intro st hst
        rcases (by simpa [simulateConversionTrace, hr2, convErrorState] using hst :
          st = _ ∨ st = _ ∨ st = _) with rfl | rfl | rfl <;> simp
      · simp [simulateConversionTrace, hr2, convErrorState, progressList, nondecreasing]
      · intro r2 hrr hs
        injection hrr with h
        subst h
        exact absurd hs hr

/-- Witness for C2 (amended): a successful run's full progress trace is
non-decreasing. -/
theorem progress_monotone_witness :
    nondecreasing (progressList (simulateConversionTrace
      (.ok ⟨true, ⟨3, 3, 500, 100⟩, ⟨3, 10, 2, 22050, "wav"⟩, none⟩))) = true := by
  exact (progress_bounds_and_monotonicity _).2.2
    ⟨true, ⟨3, 3, 500, 100⟩, ⟨3, 10, 2, 22050, "wav"⟩, none⟩ rfl rfl

theorem truncChapter_idem (t : TierLimits) (ch : Chapter) :
    truncChapter t (truncChapter t ch) = truncChapter t ch := by
  rcases t with ⟨mc, mw⟩
  cases mw with
  | none => rfl
  | some k =>
    have h1 := splitWords_truncBody k ch.body
    have hbody : truncBody (some k) (truncBody (some k) ch.body) =
        truncBody (some k) ch.body := by
      show sepJoin ((splitWords (truncBody (some k) ch.body)).take k) = _
      rw [h1, List.take_take, min_self]
      rfl
    show ({ ch with
            body := truncBody (some k) (truncBody (some k) ch.body),
            word_count := (splitWords (truncBody (some k) (truncBody (some k) ch.body))).length } : Chapter) =
        { ch with
          body := truncBody (some k) ch.body,
          word_count := (splitWords (truncBody (some k) ch.body)).length }
    rw [hbody]

theorem takeOpt_map (n : Option Nat) (f : α → β) (l : List α) :
    takeOpt n (l.map f) = (takeOpt n l).map f := by
  cases n with
  | none => rfl
  | some k => simp [takeOpt, List.map_take]

theorem takeOpt_takeOpt (n : Option Nat) (l : List α) :
    takeOpt n (takeOpt n l) = takeOpt n l := by
  cases n with
  | none => rfl
  | some k => simp [takeOpt, List.take_take]

theorem applyTierPolicy_idem (cs : List Chapter) (t : TierLimits) :
    applyTierPolicy (applyTierPolicy cs t) t = applyTierPolicy cs t := by
  unfold applyTierPolicy
  rw [takeOpt_map, takeOpt_takeOpt, List.map_map]
  exact List.map_congr_left (fun ch _ => truncChapter_idem t ch)

theorem truncChapter_word_count (m : Nat) (t : TierLimits) (ch : Chapter)
    (h : t.max_words_per_chapter = some m) :
    (truncChapter t ch).word_count ≤ m ∧
    (truncChapter t ch).body = sepJoin ((splitWords ch.body).take m) := by
  rcases t with ⟨mc, mw⟩
  cases h
  constructor
  · show (splitWords (truncBody (some m) ch.body)).length ≤ m
    rw [splitWords_truncBody, List.length_take]
    exact min_le_left m _
  · rfl

/-- C6: the Tier Policy truncation is pure and idempotent: it is
deterministic, applying it to its own output changes nothing, the output
has at most `max_chapters` chapters with their indices in the original
order, and every kept chapter's recomputed `word_count` is at most
`max_words_per_chapter` with the body cut at a word boundary (the
space-join of a prefix of the body's word list). -/
theorem tier_policy_pure_and_idempotent (cs : List Chapter) (t : TierLimits) :
    applyTierPolicy cs t = applyTierPolicy cs t ∧
    applyTierPolicy (applyTierPolicy cs t) t = applyTierPolicy cs t ∧
    (∀ n, t.max_chapters = some n → (applyTierPolicy cs t).length ≤ n) ∧
    (applyTierPolicy cs t).map (fun ch => ch.index) =
      takeOpt t.max_chapters (cs.map (fun ch => ch.index)) ∧
    (∀ ch m, t.max_words_per_chapter = some m →
      (truncChapter t ch).word_count ≤ m ∧
      (truncChapter t ch).body = sepJoin ((splitWords ch.body).take m)) ∧
    (∀ ch ∈ applyTierPolicy cs t, ∀ m, t.max_words_per_chapter = some m →
      ch.word_count ≤ m) := by
  refine ⟨rfl, applyTierPolicy_idem cs t, ?_, ?_, ?_, ?_⟩
  · intro n hn
    unfold applyTierPolicy
    rw [hn]
    simp only [takeOpt, List.length_map, List.length_take]
    exact min_le_left n _
  · unfold applyTierPolicy
    rw [takeOpt_map, List.map_map]
    exact List.map_congr_left (fun ch _ => rfl)
  · intro ch m hm
    exact truncChapter_word_count m t ch hm
  · intro ch hch m hm
    obtain ⟨ch0, _, rfl⟩ := List.mem_map.mp hch
    exact (truncChapter_word_count m t ch0 hm).1

/-- Witness for C6: on a one-chapter list with a 2-word limit, the policy
is idempotent, keeps at most 5 chapters, and bounds the recomputed word
count. -/
theorem tier_policy_witness :
    applyTierPolicy (applyTierPolicy
        [⟨1, "T", "alpha beta gamma".toList, 3⟩] ⟨some 5, some 2⟩) ⟨some 5, some 2⟩ =
      applyTierPolicy [⟨1, "T", "alpha beta gamma".toList, 3⟩] ⟨some 5, some 2⟩ ∧
    (applyTierPolicy [⟨1, "T", "alpha beta gamma".toList, 3⟩] ⟨some 5, some 2⟩).length ≤ 5 ∧
    (truncChapter ⟨some 5, some 2⟩ ⟨1, "T", "alpha beta gamma".toList, 3⟩).word_count ≤ 2 := by
  have h := tier_policy_pure_and_idempotent
    [⟨1, "T", "alpha beta gamma".toList, 3⟩] ⟨some 5, some 2⟩
  exact ⟨h.2.1, h.2.2.1 5 rfl,
    (h.2.2.2.2.1 ⟨1, "T", "alpha beta gamma".toList, 3⟩ 2 rfl).1⟩

end EbookVoice
